import Mathlib

/-!
# Verification of the `resilience` package of `supabase-edge-toolkit`

A shallow embedding of the resilience triad of the repository —
retry with exponential backoff (`retry.ts`), the circuit breaker state
machine (`circuit_breaker.ts`), the timeout wrappers (`timeout.ts`) and
their composition (`mod.ts` / `resilientFetch`) — together with theorems
settling the frozen claims about it.

Modelling conventions:
* JavaScript numbers that hold millisecond amounts, attempt counts and
  HTTP status codes are modelled as `Nat` / `Int` (they are small integers
  in every reachable state of the source); the jitter factor produced by
  `Math.random()` is an explicit rational parameter.
* Thrown JavaScript values are modelled by `JsValue`: either an `Error`
  object with the optional duck-typed fields the source inspects
  (`statusCode`, `status`, `code`, `isRetryable`), or a non-`Error` value.
* Asynchronous operations are modelled by their outcome: a zero-argument
  `op` becomes the `Except` value it settles with, and an attempt-indexed
  operation becomes `Nat → Except JsValue T` (the outcome of each attempt).
* The process-wide registry (`circuitRegistry`, a `Map`) is explicit
  state of type `Registry`, threaded through every method.
* `Date.now()` is an explicit `now : Nat` parameter; elapsed-time
  arithmetic is carried out in `Int`, like the source's number arithmetic.
* JavaScript truthiness of a stored timestamp (`openedAt &&`,
  `lastFailureTime ?`) is modelled faithfully: the value `0` is falsy.
-/

-- =============================================================================
-- JavaScript values and duck-typed errors
-- =============================================================================

/-- An `Error` object carrying the optional duck-typed fields that
`isRetryableError` and `shouldIgnoreError` probe for. -/
structure JsError where
  name : String := "Error"
  message : String := ""
  statusCode : Option Int := none
  status : Option Int := none
  code : Option String := none
  isRetryable : Option Bool := none
  deriving Repr, DecidableEq

/-- A thrown JavaScript value: an `Error` instance, or anything else
(modelled by its `String(...)` rendering). -/
inductive JsValue where
  | error (e : JsError)
  | other (s : String)
  deriving Repr, DecidableEq

/-- The digits of `parseInt`: the maximal prefix of decimal digits. -/
def leadingDigits : List Char → List Char
  | [] => []
  | c :: cs => if c.isDigit then c :: leadingDigits cs else []

/-- Accumulate a digit list into a natural number. -/
def digitsToNat : List Char → Nat → Nat
  | [], acc => acc
  | c :: cs, acc => digitsToNat cs (acc * 10 + (c.toNat - 48))

/-- Model of `parseInt(s, 10)`: optional sign followed by at least one decimal
digit; `none` models `NaN`. -/
def parseIntOpt (s : String) : Option Int :=
  let cs := s.toList
  let signAndRest : Int × List Char :=
    match cs with
    | '-' :: r => (-1, r)
    | '+' :: r => (1, r)
    | r => (1, r)
  let ds := leadingDigits signAndRest.2
  if ds.isEmpty then none
  else some (signAndRest.1 * (digitsToNat ds 0 : Int))

-- =============================================================================
-- retry.ts — configuration and delay computation
-- =============================================================================

/-- Embedding of `RetryConfig` from `types.ts`; `Option` fields are the optional
(`?:`) properties. -/
structure RetryConfig where
  maxAttempts : Nat
  baseDelayMs : Nat
  maxDelayMs : Nat
  backoffMultiplier : Option Nat := none
  jitter : Option Bool := none
  retryableStatusCodes : Option (List Int) := none
  retryableErrorCodes : Option (List String) := none
  deriving Repr, DecidableEq

/-- Embedding of `calculateRetryDelay(attempt, config)` from `retry.ts`.

`rand` is the value returned by `Math.random()` (in `[0, 1)`), made an
explicit parameter; it is only consumed when `config.jitter` is truthy.
The exponent `attempt - 1` uses truncated subtraction; the function is
only ever invoked by `withRetry` with `attempt ≥ 1`, where this agrees
with the source. -/
def calculateRetryDelay (attempt : Nat) (config : RetryConfig) (rand : ℚ) : ℚ :=
  let multiplier := config.backoffMultiplier.getD 2
  -- Exponential backoff: baseDelay * multiplier^(attempt-1)
  let delay : ℚ := (config.baseDelayMs : ℚ) * (multiplier : ℚ) ^ (attempt - 1)
  -- Cap at maxDelay
  let delay : ℚ := min delay (config.maxDelayMs : ℚ)
  -- Add jitter if enabled
  if config.jitter.getD false then
    let jitterFactor : ℚ := 1/2 + rand
    ((round (delay * jitterFactor) : ℤ) : ℚ)
  else delay

/-- The fixed list of retryable error names in `isRetryableError`. -/
def retryableNames : List String := ["TimeoutError", "AbortError", "NetworkError"]

/-- The fixed list of retryable message substrings in `isRetryableError`. -/
def retryablePatterns : List String :=
  ["timeout", "timed out", "rate limit", "too many requests",
   "service unavailable", "bad gateway", "gateway timeout",
   "network error", "connection refused", "econnreset"]

/-- JS `String.toLowerCase`, character by character. -/
def jsToLower (s : String) : String := String.mk (s.toList.map Char.toLower)

/-- JS `String.substring(0, n)`: the first `n` characters. -/
def jsTake (s : String) (n : Nat) : String := String.mk (s.toList.take n)

/-- Does `s` contain `pat` as a substring (JS `String.includes`)? -/
def containsSub (s pat : String) : Bool :=
  decide (pat.toList <:+: s.toList)

/-- Embedding of `isRetryableError(error, config)` from `retry.ts`, with the source's
priority-ordered checks. -/
def isRetryableError (error : JsValue) (config : RetryConfig) : Bool :=
  let retryableCodes := config.retryableStatusCodes.getD [429, 500, 502, 503, 504]
  let retryableErrorCodes := config.retryableErrorCodes.getD []
  match error with
  | .other _ => false   -- not an `instanceof Error`
  | .error err =>
    -- Check statusCode property
    if (match err.statusCode with
        | some n => retryableCodes.contains n
        | none => false) then true
    -- Check status property
    else if (match err.status with
        | some n => retryableCodes.contains n
        | none => false) then true
    -- Check code property: numeric string, then literal error-code string
    else if (match err.code with
        | some c =>
          (match parseIntOpt c with
           | some n => retryableCodes.contains n
           | none => false) || retryableErrorCodes.contains c
        | none => false) then true
    -- Check isRetryable property (overrides the remaining checks)
    else match err.isRetryable with
    | some b => b
    | none =>
      -- Check known retryable error names
      if retryableNames.contains err.name then true
      -- Check message for common retryable patterns
      else retryablePatterns.any (fun p => containsSub (jsToLower err.message) p)

-- =============================================================================
-- retry.ts — withRetry
-- =============================================================================

/-- The `RetryError` thrown when `withRetry` gives up. -/
structure RetryErrorE where
  message : String
  attempts : Nat
  lastError : JsError
  deriving Repr, DecidableEq

/-- Normalization `error instanceof Error ? error : new Error(String(error))`. -/
def normalizeError : JsValue → JsError
  | .error e => e
  | .other s => { name := "Error", message := s }

/-- Build the `RetryError` exactly as the source's final `throw` does:
the `attempts` field is `config.maxAttempts`, and a missing `lastError`
becomes `new Error("Unknown error")` (with `undefined` interpolated into
the message). -/
def mkRetryError (config : RetryConfig) (lastError : Option JsError) : RetryErrorE :=
  { message := "Operation failed after " ++ toString config.maxAttempts
      ++ " attempts: " ++ (match lastError with
                           | some e => e.message
                           | none => "undefined"),
    attempts := config.maxAttempts,
    lastError := lastError.getD { name := "Error", message := "Unknown error" } }

/-- The `for` loop of `withRetry`, recursing on the number of remaining
loop iterations. At each entry `attempt = config.maxAttempts - remaining`
(1-indexed), `made` counts attempts already executed and `lastError`
holds the normalized error of the last executed attempt. Returns the
settled outcome together with the total number of attempts executed.
The inter-attempt sleep and the `onRetry` callback are awaited
unconditionally in the source and do not affect the control flow or the
result, so they are not reflected in the returned value. -/
def withRetryLoop {T : Type} (op : Nat → Except JsValue T) (config : RetryConfig) :
    Nat → Nat → Option JsError → Except RetryErrorE T × Nat
  | 0, made, lastErrorFinal =>
    -- loop exits: all attempts exhausted
    (.error (mkRetryError config lastErrorFinal), made)
  | remaining + 1, made, _lastError =>
    let attempt := config.maxAttempts - remaining
    match op attempt with
    | .ok v => (.ok v, made + 1)
    | .error e =>
      let err := normalizeError e
      if config.maxAttempts ≤ attempt then
        -- no more attempts
        (.error (mkRetryError config (some err)), made + 1)
      else if ¬ isRetryableError e config then
        -- not a retryable error
        (.error (mkRetryError config (some err)), made + 1)
      else
        withRetryLoop op config remaining (made + 1) (some err)

/-- Embedding of `withRetry(operation, config)` from `retry.ts`: `op n` is the outcome
of the `n`-th invocation of the operation (1-indexed). The second
component is the number of attempts actually executed. -/
def withRetry {T : Type} (op : Nat → Except JsValue T) (config : RetryConfig) :
    Except RetryErrorE T × Nat :=
  withRetryLoop op config config.maxAttempts 0 none

-- =============================================================================
-- circuit_breaker.ts — state machine and registry
-- =============================================================================

/-- Embedding of `CircuitState` from `types.ts`. -/
inductive CircuitState where
  | closed
  | opened      -- the source's "open"
  | halfOpen    -- the source's "half-open"
  deriving Repr, DecidableEq

/-- Embedding of `CircuitBreakerConfig` from `types.ts`. -/
structure CircuitBreakerConfig where
  failureThreshold : Nat
  resetTimeoutMs : Nat
  successThreshold : Nat
  ignoredStatusCodes : Option (List Int) := none
  deriving Repr, DecidableEq

/-- The in-memory record for one named breaker
(interface `CircuitBreakerState` in the source). Note that it stores no
policy — only the state, counters, timestamps and last error message. -/
structure CircuitBreakerState where
  state : CircuitState
  failureCount : Nat
  successCount : Nat
  lastFailureTime : Option Nat := none
  openedAt : Option Nat := none
  lastError : Option String := none
  deriving Repr, DecidableEq

/-- The record `getOrCreate` installs for a new name. -/
def freshClosed : CircuitBreakerState :=
  { state := .closed, failureCount := 0, successCount := 0 }

/-- The module-level `circuitRegistry : Map<string, CircuitBreakerState>`. -/
def Registry : Type := String → Option CircuitBreakerState

/-- Update a name's record, as `Map.set` does. -/
def Registry.set (reg : Registry) (name : String) (st : CircuitBreakerState) : Registry :=
  fun n => if n = name then some st else reg n

/-- The empty registry. -/
def Registry.empty : Registry := fun _ => none

/-- A partial update of a record, as passed to the source's `setState`:
an outer `none` means the property is absent from the update object, and
`some none` models a property explicitly set to `undefined` (which the
spread `{ ...current, ...update }` writes through). -/
structure StateUpdate where
  state : Option CircuitState := none
  failureCount : Option Nat := none
  successCount : Option Nat := none
  lastFailureTime : Option (Option Nat) := none
  openedAt : Option (Option Nat) := none
  lastError : Option (Option String) := none

/-- Merge semantics of `{ ...current, ...update }`. -/
def applyUpdate (cur : CircuitBreakerState) (u : StateUpdate) : CircuitBreakerState :=
  { state := u.state.getD cur.state,
    failureCount := u.failureCount.getD cur.failureCount,
    successCount := u.successCount.getD cur.successCount,
    lastFailureTime := u.lastFailureTime.getD cur.lastFailureTime,
    openedAt := u.openedAt.getD cur.openedAt,
    lastError := u.lastError.getD cur.lastError }

/-- A `CircuitBreaker` handle: the private `_name` and `_config` fields.
The handle itself is immutable; all mutable state lives in the registry. -/
structure CircuitBreaker where
  name : String
  config : CircuitBreakerConfig
  deriving Repr, DecidableEq

/-- Embedding of `CircuitBreaker.getOrCreate(name, config)`: installs a fresh closed
record if the name is unknown (never resets an existing record), and
returns a handle carrying the *caller's* config. -/
def CircuitBreaker.getOrCreate (name : String) (config : CircuitBreakerConfig)
    (reg : Registry) : CircuitBreaker × Registry :=
  let reg' := match reg name with
    | some _ => reg
    | none => reg.set name freshClosed
  (⟨name, config⟩, reg')

/-- The private `getState()`: registry lookup with a fresh-closed default. -/
def CircuitBreaker.getStateRec (b : CircuitBreaker) (reg : Registry) : CircuitBreakerState :=
  (reg b.name).getD freshClosed

/-- The private `setState(update)`. -/
def CircuitBreaker.setState (b : CircuitBreaker) (u : StateUpdate) (reg : Registry) : Registry :=
  reg.set b.name (applyUpdate (b.getStateRec reg) u)

/-- The private `transitionTo(newState)`, with its per-state side
effects. Entering `open` is the only transition that reads the clock. -/
def CircuitBreaker.transitionTo (b : CircuitBreaker) (now : Nat) (newState : CircuitState)
    (reg : Registry) : Registry :=
  let updates : StateUpdate :=
    match newState with
    | .opened =>
      { state := some .opened, openedAt := some (some now), successCount := some 0 }
    | .halfOpen =>
      { state := some .halfOpen, successCount := some 0 }
    | .closed =>
      { state := some .closed, failureCount := some 0, successCount := some 0,
        openedAt := some none, lastError := some none }
  b.setState updates reg

/-- The private `checkStateTransition()`: the lazy `open → half-open`
move. The source guards with `state === "open" && openedAt`, so a stored
timestamp of `0` is falsy and skips the check. -/
def CircuitBreaker.checkStateTransition (b : CircuitBreaker) (now : Nat) (reg : Registry) :
    Registry :=
  let s := b.getStateRec reg
  match s.state, s.openedAt with
  | .opened, some t =>
    if t ≠ 0 ∧ (b.config.resetTimeoutMs : Int) ≤ (now : Int) - (t : Int) then
      b.transitionTo now .halfOpen reg
    else reg
  | _, _ => reg

/-- The `remainingTimeoutMs` getter:
`max(0, resetTimeoutMs - (now - openedAt))` while open, else `0`. -/
def CircuitBreaker.remainingTimeoutMs (b : CircuitBreaker) (now : Nat) (reg : Registry) : Nat :=
  let s := b.getStateRec reg
  match s.state, s.openedAt with
  | .opened, some t =>
    if t = 0 then 0
    else
      let remaining : Int := (b.config.resetTimeoutMs : Int) - ((now : Int) - (t : Int))
      if 0 < remaining then remaining.toNat else 0
  | _, _ => 0

/-- The private `onSuccess()`. -/
def CircuitBreaker.onSuccess (b : CircuitBreaker) (now : Nat) (reg : Registry) : Registry :=
  let s := b.getStateRec reg
  match s.state with
  | .halfOpen =>
    let newCount := s.successCount + 1
    if b.config.successThreshold ≤ newCount then b.transitionTo now .closed reg
    else b.setState { successCount := some newCount } reg
  | .closed =>
    -- Reset failure count on success
    b.setState { failureCount := some 0 } reg
  | .opened => reg

/-- The private `shouldIgnoreError(error)`: the ignored-status check over
the duck-typed `statusCode`, `status` and numeric-string `code` fields. -/
def CircuitBreaker.shouldIgnoreError (b : CircuitBreaker) (error : JsValue) : Bool :=
  let ignoredCodes := b.config.ignoredStatusCodes.getD []
  match error with
  | .other _ => false
  | .error err =>
    (match err.statusCode with
     | some n => ignoredCodes.contains n
     | none => false) ||
    (match err.status with
     | some n => ignoredCodes.contains n
     | none => false) ||
    (match err.code with
     | some c =>
       match parseIntOpt c with
       | some n => ignoredCodes.contains n
       | none => false
     | none => false)

/-- Rendering `String(error)` / `error.message`, as `onFailure` does. -/
def errorMessageOf : JsValue → String
  | .error e => e.message
  | .other s => s

/-- The private `onFailure(error)`: ignored errors return before any
state is touched; otherwise the last-error fields are written and the
state-specific failure transition is applied to the state read *before*
that write. -/
def CircuitBreaker.onFailure (b : CircuitBreaker) (now : Nat) (error : JsValue)
    (reg : Registry) : Registry :=
  if b.shouldIgnoreError error then reg
  else
    let s := b.getStateRec reg
    let reg' := b.setState
      { lastFailureTime := some (some now),
        lastError := some (some (jsTake (errorMessageOf error) 200)) } reg
    match s.state with
    | .halfOpen =>
      -- Any failure in half-open immediately reopens the circuit
      b.transitionTo now .opened reg'
    | .closed =>
      let newCount := s.failureCount + 1
      if b.config.failureThreshold ≤ newCount then b.transitionTo now .opened reg'
      else b.setState { failureCount := some newCount } reg'
    | .opened => reg'

/-- The outcome the wrapped operation settles with, when it is invoked. -/
inductive CallOutcome (T : Type) where
  | success (v : T)
  | failure (e : JsValue)

/-- The `CircuitBreakerOpenError` thrown on the fail-fast branch. -/
structure CircuitBreakerOpenErrorE where
  serviceName : String
  remainingTimeoutMs : Nat
  deriving Repr, DecidableEq

/-- What `call` settles with. -/
inductive CallResult (T : Type) where
  | ok (v : T)
  | circuitOpen (e : CircuitBreakerOpenErrorE)
  | err (e : JsValue)

/-- Embedding of `call(operation)`: check the time-based transition, fail fast while
open (without invoking the operation), otherwise run the operation and
apply the success/failure bookkeeping, re-raising the original error.
The third component records whether the wrapped operation was invoked. -/
def CircuitBreaker.call {T : Type} (b : CircuitBreaker) (now : Nat) (op : CallOutcome T)
    (reg : Registry) : CallResult T × Registry × Bool :=
  let reg := b.checkStateTransition now reg
  let currentState := b.getStateRec reg
  if currentState.state = .opened then
    (.circuitOpen ⟨b.name, b.remainingTimeoutMs now reg⟩, reg, false)
  else
    match op with
    | .success v => (.ok v, b.onSuccess now reg, true)
    | .failure e => (.err e, b.onFailure now e reg, true)

/-- Embedding of `CircuitBreakerStats` from `types.ts`; `lastFailureTime` keeps the
raw millisecond value in place of the source's ISO-8601 rendering (a
stored `0` is falsy and reported as `undefined`, like the source). -/
structure CircuitBreakerStatsE where
  name : String
  state : CircuitState
  failureCount : Nat
  successCount : Nat
  lastFailureTime : Option Nat
  lastError : Option String
  remainingTimeoutMs : Nat
  deriving Repr, DecidableEq

/-- The `stats` getter. -/
def CircuitBreaker.stats (b : CircuitBreaker) (now : Nat) (reg : Registry) :
    CircuitBreakerStatsE :=
  let s := b.getStateRec reg
  { name := b.name,
    state := s.state,
    failureCount := s.failureCount,
    successCount := s.successCount,
    lastFailureTime := match s.lastFailureTime with
      | some t => if t = 0 then none else some t
      | none => none,
    lastError := s.lastError,
    remainingTimeoutMs := b.remainingTimeoutMs now reg }

/-- Run `n` consecutive `call`s whose operation fails with `e`, all at the
same instant `now`. -/
def iterateFailures (b : CircuitBreaker) (now : Nat) (e : JsValue) :
    Nat → Registry → Registry
  | 0, reg => reg
  | n + 1, reg => iterateFailures b now e n (b.call now (.failure (T := Unit) e) reg).2.1

/-- Run `n` consecutive `call`s whose operation succeeds, all at `now`. -/
def iterateSuccesses (b : CircuitBreaker) (now : Nat) :
    Nat → Registry → Registry
  | 0, reg => reg
  | n + 1, reg => iterateSuccesses b now n (b.call now (.success (T := Unit) ()) reg).2.1

-- =============================================================================
-- mod.ts — the operation built by resilientFetch
-- =============================================================================

/-- A fetch `Response`, reduced to the one field the resilience layers
inspect. -/
structure ResponseE where
  status : Int
  deriving Repr, DecidableEq

/-- The error object `resilientFetch` promotes a 5xx response into:
`new Error("HTTP " + status)` with a `statusCode` property. -/
def promotedError (status : Int) : JsError :=
  { name := "Error", message := "HTTP " ++ toString status, statusCode := some status }

/-- The inner `operation` closure of `resilientFetch`: run
`fetchWithTimeout` (whose outcome is the `fetchResult` argument) and
promote a response with `status >= 500` to a thrown failure carrying the
status code. -/
def resilientOperation (fetchResult : Except JsValue ResponseE) : Except JsValue ResponseE :=
  match fetchResult with
  | .error e => .error e
  | .ok response =>
    -- Throw on server errors to trigger circuit breaker
    if 500 ≤ response.status then
      .error (.error (promotedError response.status))
    else
      .ok response

-- =============================================================================
-- timeout.ts — timer bookkeeping on every exit path
-- =============================================================================

/-- The lifecycle events of the timers owned by the timeout/retry code:
creation (`setTimeout`), expiry (the scheduled callback ran), and
cancellation (`clearTimeout`). -/
inductive TimerEvent where
  | created (id : Nat)
  | fired (id : Nat)
  | cleared (id : Nat)
  deriving Repr, DecidableEq

/-- A timer is pending after a trace when it was created but has neither
fired nor been cleared. -/
def pendingTimers (events : List TimerEvent) : List Nat :=
  (events.filterMap fun ev => match ev with
    | .created id => some id
    | _ => none).filter fun id =>
      ¬ (events.contains (.fired id) ∨ events.contains (.cleared id))

/-- The `TimeoutError` thrown by `withTimeout` /
`fetchWithTimeout`, as a `JsError` (its `isRetryable` getter returns
`true`, and its `code` is `"TIMEOUT"`). -/
def timeoutJsError (operation : String) (timeoutMs : Nat) : JsError :=
  { name := "TimeoutError",
    message := "Operation " ++ operation ++ " timed out after "
      ++ toString timeoutMs ++ "ms",
    code := some "TIMEOUT",
    isRetryable := some true }

/-- Embedding of `withTimeout(promise, timeoutMs, operation)` from `timeout.ts`,
modelled with its timer trace. `promise` is the outcome the wrapped
promise would settle with, and `timerWins` says which side of the
`Promise.race` settles first. The `finally` block clears the timer on
every path. -/
def withTimeoutModel {T : Type} (promise : Except JsValue T) (timerWins : Bool)
    (timeoutMs : Nat) (operation : String) : Except JsValue T × List TimerEvent :=
  let timerId := 0
  if timerWins then
    -- the timer fired and rejected the race; finally clears the (spent) timer
    (.error (.error (timeoutJsError operation timeoutMs)),
     [.created timerId, .fired timerId, .cleared timerId])
  else
    -- the promise settled first (either way); finally clears the timer
    (promise, [.created timerId, .cleared timerId])

/-- How the guarded `fetch` of `fetchWithTimeout` settles. -/
inductive FetchOutcome where
  | ok (r : ResponseE)            -- fetch resolved
  | abortedByTimer                -- the abort timer fired; fetch rejects with AbortError
  | failed (e : JsError)          -- fetch rejected for another reason
  deriving Repr, DecidableEq

/-- Embedding of `fetchWithTimeout(url, options, timeoutMs)` from `timeout.ts`, with
its timer trace: an `AbortError` is normalized to a `TimeoutError`, and
the `finally` block clears the timer on every path. -/
def fetchWithTimeoutModel (outcome : FetchOutcome) (timeoutMs : Nat) :
    Except JsValue ResponseE × List TimerEvent :=
  let timerId := 0
  match outcome with
  | .ok r => (.ok r, [.created timerId, .cleared timerId])
  | .abortedByTimer =>
    (.error (.error (timeoutJsError "fetch" timeoutMs)),
     [.created timerId, .fired timerId, .cleared timerId])
  | .failed e => (.error (.error e), [.created timerId, .cleared timerId])

/-- Embedding of `createTimeoutController(timeoutMs)` from `timeout.ts`: it calls
`setTimeout` and returns the controller, discarding the timer id — no
code path ever calls `clearTimeout` on this timer, so its trace up to
(and past) the settlement of any fetch guarded by the returned
controller contains only the creation event. -/
def createTimeoutControllerModel (_timeoutMs : Nat) : List TimerEvent :=
  [.created 0]

/-- The `sleep(ms)` helper of `retry.ts`: its timer resolves the sleep
promise, i.e. it fires exactly when the sleep completes. -/
def sleepModel (_ms : Nat) : List TimerEvent :=
  [.created 0, .fired 0]

-- =============================================================================
-- Concrete inputs used by witnesses and counterexamples
-- =============================================================================

/-- A retry config with jitter disabled, matching the spec's worked
example (base=100, cap=10000, multiplier=2). -/
def cfgNoJitter : RetryConfig :=
  { maxAttempts := 3, baseDelayMs := 100, maxDelayMs := 10000,
    backoffMultiplier := some 2, jitter := some false }

/-- A retry config with jitter enabled whose uncapped delay exceeds the
cap at attempt 2, so the jittered delay can exceed `maxDelayMs`. -/
def cfgJitter : RetryConfig :=
  { maxAttempts := 3, baseDelayMs := 100, maxDelayMs := 150,
    backoffMultiplier := some 2, jitter := some true }

/-- A small retry config used by the `withRetry` scenarios. -/
def cfgRetry3 : RetryConfig :=
  { maxAttempts := 3, baseDelayMs := 10, maxDelayMs := 100 }

/-- A non-retryable failure: HTTP 404 on every attempt. -/
def op404 : Nat → Except JsValue Unit :=
  fun _ => .error (.error { name := "Error", message := "Not found", statusCode := some 404 })

/-- A retryable failure: HTTP 500 on every attempt. -/
def op500 : Nat → Except JsValue Unit :=
  fun _ => .error (.error { name := "Error", message := "HTTP 500", statusCode := some 500 })

/-- A breaker policy used by the concrete scenarios. -/
def cfgBreaker2 : CircuitBreakerConfig :=
  { failureThreshold := 2, resetTimeoutMs := 1000, successThreshold := 2,
    ignoredStatusCodes := some [400, 404] }

/-- A second, stricter policy for the shared-record scenario. -/
def cfgBreaker5 : CircuitBreakerConfig :=
  { failureThreshold := 5, resetTimeoutMs := 30000, successThreshold := 2,
    ignoredStatusCodes := some [400, 404] }

/-- A non-ignored server failure thrown by an operation. -/
def err500 : JsValue :=
  .error { name := "Error", message := "HTTP 500", statusCode := some 500 }

/-- An ignored client failure (status 404 is in `cfgBreaker2`'s ignored set). -/
def err404 : JsValue :=
  .error { name := "Error", message := "Not found", statusCode := some 404 }

/-- A registry holding only a fresh closed record for `"svc"`. -/
def regSvc : Registry := Registry.set Registry.empty "svc" freshClosed

/-- A registry holding a half-open record for `"svc"` with one prior
success and some failure history. -/
def regSvcHalfOpen : Registry :=
  Registry.set Registry.empty "svc"
    { state := .halfOpen, failureCount := 3, successCount := 0,
      lastFailureTime := some 7, openedAt := some 2, lastError := some "HTTP 500" }

/-- A registry holding a closed record for `"svc"` with one recorded
failure. -/
def regSvcOneFailure : Registry :=
  Registry.set Registry.empty "svc"
    { state := .closed, failureCount := 1, successCount := 0 }

-- =============================================================================
-- Helper lemmas: registry and state-machine steps
-- =============================================================================

theorem getStateRec_set_self (b : CircuitBreaker) (reg : Registry) (st : CircuitBreakerState) :
    b.getStateRec (Registry.set reg b.name st) = st := by
  simp [CircuitBreaker.getStateRec, Registry.set]

theorem getStateRec_setState (b : CircuitBreaker) (u : StateUpdate) (reg : Registry) :
    b.getStateRec (b.setState u reg) = applyUpdate (b.getStateRec reg) u := by
  simp [CircuitBreaker.setState, getStateRec_set_self]

theorem getStateRec_eq_of_name (b b' : CircuitBreaker) (reg : Registry)
    (hname : b.name = b'.name) : b.getStateRec reg = b'.getStateRec reg := by
  simp [CircuitBreaker.getStateRec, hname]

theorem checkStateTransition_of_not_opened (b : CircuitBreaker) (now : Nat) (reg : Registry)
    (h : (b.getStateRec reg).state ≠ .opened) :
    b.checkStateTransition now reg = reg := by
  unfold CircuitBreaker.checkStateTransition
  rcases hs : (b.getStateRec reg).state <;>
    rcases ho : (b.getStateRec reg).openedAt <;>
    simp_all

theorem onFailure_ignored (b : CircuitBreaker) (now : Nat) (e : JsValue) (reg : Registry)
    (hig : b.shouldIgnoreError e = true) :
    b.onFailure now e reg = reg := by
  simp [CircuitBreaker.onFailure, hig]

theorem onFailure_closed_record (b : CircuitBreaker) (now : Nat) (e : JsValue) (reg : Registry)
    (k sc : Nat) (lft oa : Option Nat) (le : Option String)
    (hig : b.shouldIgnoreError e = false)
    (hrec : b.getStateRec reg = ⟨.closed, k, sc, lft, oa, le⟩) :
    b.getStateRec (b.onFailure now e reg) =
      if b.config.failureThreshold ≤ k + 1 then
        ⟨.opened, k, 0, some now, some now, some (jsTake (errorMessageOf e) 200)⟩
      else
        ⟨.closed, k + 1, sc, some now, oa, some (jsTake (errorMessageOf e) 200)⟩ := by
  by_cases ht : b.config.failureThreshold ≤ k + 1 <;>
    simp [CircuitBreaker.onFailure, hig, hrec, getStateRec_setState,
      CircuitBreaker.transitionTo, applyUpdate, ht]

theorem onFailure_halfOpen_record (b : CircuitBreaker) (now : Nat) (e : JsValue) (reg : Registry)
    (fc sc : Nat) (lft oa : Option Nat) (le : Option String)
    (hig : b.shouldIgnoreError e = false)
    (hrec : b.getStateRec reg = ⟨.halfOpen, fc, sc, lft, oa, le⟩) :
    b.getStateRec (b.onFailure now e reg) =
      ⟨.opened, fc, 0, some now, some now, some (jsTake (errorMessageOf e) 200)⟩ := by
  simp [CircuitBreaker.onFailure, hig, hrec, getStateRec_setState,
    CircuitBreaker.transitionTo, applyUpdate]

theorem onSuccess_halfOpen_record (b : CircuitBreaker) (now : Nat) (reg : Registry)
    (fc sc : Nat) (lft oa : Option Nat) (le : Option String)
    (hrec : b.getStateRec reg = ⟨.halfOpen, fc, sc, lft, oa, le⟩) :
    b.getStateRec (b.onSuccess now reg) =
      if b.config.successThreshold ≤ sc + 1 then
        ⟨.closed, 0, 0, lft, none, none⟩
      else
        ⟨.halfOpen, fc, sc + 1, lft, oa, le⟩ := by
  by_cases ht : b.config.successThreshold ≤ sc + 1 <;>
    simp [CircuitBreaker.onSuccess, hrec, getStateRec_setState,
      CircuitBreaker.transitionTo, applyUpdate, ht]

theorem call_failure_step {T : Type} (b : CircuitBreaker) (now : Nat) (e : JsValue)
    (reg : Registry) (h : (b.getStateRec reg).state ≠ .opened) :
    b.call now (.failure (T := T) e) reg = (.err e, b.onFailure now e reg, true) := by
  rw [CircuitBreaker.call.eq_def, checkStateTransition_of_not_opened b now reg h]
  simp [h]

theorem call_success_step {T : Type} (b : CircuitBreaker) (now : Nat) (v : T)
    (reg : Registry) (h : (b.getStateRec reg).state ≠ .opened) :
    b.call now (.success v) reg = (.ok v, b.onSuccess now reg, true) := by
  rw [CircuitBreaker.call.eq_def, checkStateTransition_of_not_opened b now reg h]
  simp [h]

theorem call_open_failfast {T : Type} (b : CircuitBreaker) (now : Nat) (op : CallOutcome T)
    (reg : Registry) (fc sc : Nat) (t : Nat) (lft : Option Nat) (le : Option String)
    (hrec : b.getStateRec reg = ⟨.opened, fc, sc, lft, some t, le⟩)
    (ht0 : t ≠ 0)
    (helapsed : (now : Int) - (t : Int) < (b.config.resetTimeoutMs : Int)) :
    b.call now op reg =
      (.circuitOpen ⟨b.name, ((b.config.resetTimeoutMs : Int) - ((now : Int) - (t : Int))).toNat⟩,
        reg, false) := by
  have hcheck : b.checkStateTransition now reg = reg := by
    simp [CircuitBreaker.checkStateTransition, hrec, ht0]
    omega
  rw [CircuitBreaker.call.eq_def, hcheck]
  simp [hrec, CircuitBreaker.remainingTimeoutMs, ht0]
  omega

theorem iterateFailures_succ_last (b : CircuitBreaker) (now : Nat) (e : JsValue)
    (n : Nat) (reg : Registry) :
    iterateFailures b now e (n + 1) reg =
      (b.call now (.failure (T := Unit) e) (iterateFailures b now e n reg)).2.1 := by
  induction n generalizing reg with
  | zero => rfl
  | succ m ih =>
    rw [iterateFailures, ih]
    rfl

theorem iterateSuccesses_succ_last (b : CircuitBreaker) (now : Nat)
    (n : Nat) (reg : Registry) :
    iterateSuccesses b now (n + 1) reg =
      (b.call now (.success (T := Unit) ()) (iterateSuccesses b now n reg)).2.1 := by
  induction n generalizing reg with
  | zero => rfl
  | succ m ih =>
    rw [iterateSuccesses, ih]
    rfl

/-- While below the failure threshold, consecutive non-ignored failures
keep a closed breaker closed and advance only the failure counter (and
the last-failure bookkeeping). -/
theorem iterateFailures_closed (b : CircuitBreaker) (now : Nat) (e : JsValue)
    (hig : b.shouldIgnoreError e = false) (sc : Nat) (oa : Option Nat) :
    ∀ (i k : Nat) (reg : Registry) (lft : Option Nat) (le : Option String),
      b.getStateRec reg = ⟨.closed, k, sc, lft, oa, le⟩ →
      k + i < b.config.failureThreshold →
      ∃ lft' le', b.getStateRec (iterateFailures b now e i reg) =
        ⟨.closed, k + i, sc, lft', oa, le'⟩ := by
  intro i
  induction i with
  | zero =>
    intro k reg lft le hrec _
    exact ⟨lft, le, hrec⟩
  | succ m ih =>
    intro k reg lft le hrec hbound
    have hne : (b.getStateRec reg).state ≠ .opened := by rw [hrec]; simp
    have hstep : b.getStateRec ((b.call now (.failure (T := Unit) e) reg)).2.1 =
        ⟨.closed, k + 1, sc, some now, oa, some (jsTake (errorMessageOf e) 200)⟩ := by
      rw [call_failure_step b now e reg hne]
      rw [onFailure_closed_record b now e reg k sc lft oa le hig hrec]
      have : ¬ b.config.failureThreshold ≤ k + 1 := by omega
      simp [this]
    rw [iterateFailures]
    have := ih (k + 1) ((b.call now (.failure (T := Unit) e) reg)).2.1
      (some now) (some (jsTake (errorMessageOf e) 200)) hstep (by omega)
    rcases this with ⟨lft', le', h⟩
    exact ⟨lft', le', by rw [h]; congr 1; omega⟩

/-- While below the success threshold, consecutive successes keep a
half-open breaker half-open and advance only the success counter. -/
theorem iterateSuccesses_halfOpen (b : CircuitBreaker) (now : Nat)
    (fc : Nat) (lft oa : Option Nat) (le : Option String) :
    ∀ (i s : Nat) (reg : Registry),
      b.getStateRec reg = ⟨.halfOpen, fc, s, lft, oa, le⟩ →
      s + i < b.config.successThreshold →
      b.getStateRec (iterateSuccesses b now i reg) =
        ⟨.halfOpen, fc, s + i, lft, oa, le⟩ := by
  intro i
  induction i with
  | zero =>
    intro s reg hrec _
    simpa using hrec
  | succ m ih =>
    intro s reg hrec hbound
    have hne : (b.getStateRec reg).state ≠ .opened := by rw [hrec]; simp
    have hstep : b.getStateRec ((b.call now (.success (T := Unit) ()) reg)).2.1 =
        ⟨.halfOpen, fc, s + 1, lft, oa, le⟩ := by
      rw [call_success_step b now () reg hne]
      rw [onSuccess_halfOpen_record b now reg fc s lft oa le hrec]
      have : ¬ b.config.successThreshold ≤ s + 1 := by omega
      simp [this]
    rw [iterateSuccesses]
    have := ih (s + 1) ((b.call now (.success (T := Unit) ()) reg)).2.1 hstep (by omega)
    rw [this]
    congr 1
    omega

/-- Invariant of the `withRetry` loop: on the failure path the built
`RetryError` always carries `config.maxAttempts` in its `attempts`
field, and its `lastError` is the (normalized) error of the last attempt
actually executed. At entry, `made` attempts have been executed,
`made + remaining = config.maxAttempts`, and `lastErr` is the normalized
error of attempt `made` (or `none` when `made = 0`). -/
theorem withRetryLoop_spec {T : Type} (op : Nat → Except JsValue T) (cfg : RetryConfig) :
    ∀ (remaining made : Nat) (lastErr : Option JsError),
      made + remaining = cfg.maxAttempts →
      (made = 0 → lastErr = none) →
      (1 ≤ made → ∃ e, op made = .error e ∧ lastErr = some (normalizeError e)) →
      ∀ err, (withRetryLoop op cfg remaining made lastErr).1 = .error err →
        err.attempts = cfg.maxAttempts ∧
        ((withRetryLoop op cfg remaining made lastErr).2 = 0 →
          err.lastError = { name := "Error", message := "Unknown error" }) ∧
        (1 ≤ (withRetryLoop op cfg remaining made lastErr).2 →
          ∃ e, op (withRetryLoop op cfg remaining made lastErr).2 = .error e ∧
            err.lastError = normalizeError e) := by
  intro remaining
  induction remaining with
  | zero =>
    intro made lastErr _hinv h0 h1 err herr
    simp only [withRetryLoop, Except.error.injEq] at herr
    subst herr
    refine ⟨rfl, ?_, ?_⟩
    · intro hmade0
      simp only [withRetryLoop] at hmade0
      rw [h0 hmade0]
      simp [mkRetryError]
    · intro hmade1
      simp only [withRetryLoop] at hmade1 ⊢
      obtain ⟨e, hope, hlast⟩ := h1 hmade1
      exact ⟨e, hope, by rw [hlast]; simp [mkRetryError]⟩
  | succ rem ih =>
    intro made lastErr hinv h0 h1 err herr
    have hatt : cfg.maxAttempts - rem = made + 1 := by omega
    rcases hop : op (made + 1) with e | v
    · -- the attempt failed
      by_cases hstop : cfg.maxAttempts ≤ made + 1
      · simp only [withRetryLoop, hatt, hop, hstop, if_true, Except.error.injEq] at herr ⊢
        subst herr
        refine ⟨rfl, by omega, fun _ => ⟨e, rfl, by simp [mkRetryError]⟩⟩
      · by_cases hretry : isRetryableError e cfg
        · -- retryable: the loop continues; apply the induction hypothesis
          simp only [withRetryLoop, hatt, hop, hstop, hretry, if_false, not_true_eq_false,
            Bool.not_eq_true, ite_false, ite_true, not_false_eq_true] at herr ⊢
          exact ih (made + 1) (some (normalizeError e)) (by omega)
            (by omega) (fun _ => ⟨e, hop, rfl⟩) err herr
        · simp only [withRetryLoop, hatt, hop, hstop, hretry, Except.error.injEq,
            Bool.not_eq_true, not_false_eq_true, ite_true, ite_false] at herr ⊢
          subst herr
          refine ⟨rfl, by omega, fun _ => ⟨e, rfl, by simp [mkRetryError]⟩⟩
    · -- the attempt succeeded: the loop returns `.ok`, contradicting `herr`
      exfalso
      simp only [withRetryLoop, hatt, hop] at herr
      exact Except.noConfusion herr

/-- Rounding a natural amount scaled by a factor in `[1/2, 3/2)` stays
within `[c/2, 3c/2]` (JS `Math.round` is `⌊x + 1/2⌋`, as is Lean's
`round` on `ℚ`). -/
theorem round_scale_bounds (c : Nat) (f : ℚ) (hf : 1/2 ≤ f) (hf' : f < 3/2) :
    (c : ℚ) / 2 ≤ ((round ((c : ℚ) * f) : ℤ) : ℚ) ∧
    ((round ((c : ℚ) * f) : ℤ) : ℚ) ≤ 3 / 2 * (c : ℚ) := by
  have hc0 : (0 : ℚ) ≤ (c : ℚ) := Nat.cast_nonneg c
  have hxlow : (c : ℚ) / 2 ≤ (c : ℚ) * f := by nlinarith
  have hround : round ((c : ℚ) * f) = ⌊(c : ℚ) * f + 1/2⌋ := round_eq _
  have hfl_le : ((⌊(c : ℚ) * f + 1/2⌋ : ℤ) : ℚ) ≤ (c : ℚ) * f + 1/2 := Int.floor_le _
  have hfl_gt : (c : ℚ) * f + 1/2 - 1 < ((⌊(c : ℚ) * f + 1/2⌋ : ℤ) : ℚ) :=
    Int.sub_one_lt_floor _
  constructor
  · have h1 : (c : ℚ) - 1 < 2 * ((round ((c : ℚ) * f) : ℤ) : ℚ) := by
      rw [hround]; nlinarith
    have h2 : (c : ℤ) - 1 < 2 * round ((c : ℚ) * f) := by exact_mod_cast h1
    have h3 : (c : ℤ) ≤ 2 * round ((c : ℚ) * f) := by omega
    have h4 : (c : ℚ) ≤ 2 * ((round ((c : ℚ) * f) : ℤ) : ℚ) := by exact_mod_cast h3
    linarith
  · rcases Nat.eq_zero_or_pos c with hc | hc
    · subst hc
      simp
    · have hcpos : (0 : ℚ) < (c : ℚ) := by exact_mod_cast hc
      have hxhigh : (c : ℚ) * f < 3/2 * (c : ℚ) := by nlinarith
      have h1 : 2 * ((round ((c : ℚ) * f) : ℤ) : ℚ) < 3 * (c : ℚ) + 1 := by
        rw [hround]; nlinarith
      have h2 : 2 * round ((c : ℚ) * f) < 3 * (c : ℤ) + 1 := by exact_mod_cast h1
      have h3 : 2 * round ((c : ℚ) * f) ≤ 3 * (c : ℤ) := by omega
      have h4 : 2 * ((round ((c : ℚ) * f) : ℤ) : ℚ) ≤ 3 * (c : ℚ) := by exact_mod_cast h3
      linarith

/-- From a closed record with `failureCount = 0`, exactly
`failureThreshold` consecutive non-ignored failures leave the record
open with the stored `failureCount` still at `failureThreshold - 1`
(the final increment is never written: `transitionTo("open")` only
writes `state`, `openedAt` and `successCount`). -/
theorem iterateFailures_threshold_record
    (name : String) (cfg : CircuitBreakerConfig) (e : JsValue) (now : Nat)
    (reg : Registry) (sc : Nat) (lft oa : Option Nat) (le : Option String)
    (hthr : 1 ≤ cfg.failureThreshold)
    (hig : CircuitBreaker.shouldIgnoreError ⟨name, cfg⟩ e = false)
    (hrec : CircuitBreaker.getStateRec ⟨name, cfg⟩ reg = ⟨.closed, 0, sc, lft, oa, le⟩) :
    CircuitBreaker.getStateRec ⟨name, cfg⟩
        (iterateFailures ⟨name, cfg⟩ now e cfg.failureThreshold reg) =
      ⟨.opened, cfg.failureThreshold - 1, 0, some now, some now,
        some (jsTake (errorMessageOf e) 200)⟩ := by
  obtain ⟨lft', le', hrec'⟩ :=
    iterateFailures_closed ⟨name, cfg⟩ now e hig sc oa (cfg.failureThreshold - 1) 0 reg lft le
      hrec (by show 0 + (cfg.failureThreshold - 1) < cfg.failureThreshold; omega)
  have hne : (CircuitBreaker.getStateRec ⟨name, cfg⟩
      (iterateFailures ⟨name, cfg⟩ now e (cfg.failureThreshold - 1) reg)).state ≠ .opened := by
    rw [hrec']; simp
  have hsplit : cfg.failureThreshold = (cfg.failureThreshold - 1) + 1 := by omega
  have hiter : iterateFailures ⟨name, cfg⟩ now e cfg.failureThreshold reg =
      (CircuitBreaker.call ⟨name, cfg⟩ now (.failure (T := Unit) e)
        (iterateFailures ⟨name, cfg⟩ now e (cfg.failureThreshold - 1) reg)).2.1 := by
    conv_lhs => rw [hsplit]
    rw [iterateFailures_succ_last]
  rw [hiter, call_failure_step ⟨name, cfg⟩ now e _ hne,
    onFailure_closed_record ⟨name, cfg⟩ now e _ (0 + (cfg.failureThreshold - 1)) sc lft' oa le'
      hig hrec']
  have hge : (⟨name, cfg⟩ : CircuitBreaker).config.failureThreshold ≤
      (0 + (cfg.failureThreshold - 1)) + 1 := by
    show cfg.failureThreshold ≤ _
    omega
  rw [if_pos hge]
  have hzero : 0 + (cfg.failureThreshold - 1) = cfg.failureThreshold - 1 := by omega
  rw [hzero]

theorem checkStateTransition_opened_record (b : CircuitBreaker) (now : Nat) (reg : Registry)
    (fc sc t : Nat) (lft : Option Nat) (le : Option String)
    (hrec : b.getStateRec reg = ⟨.opened, fc, sc, lft, some t, le⟩)
    (ht0 : t ≠ 0) :
    b.getStateRec (b.checkStateTransition now reg) =
      if (b.config.resetTimeoutMs : Int) ≤ (now : Int) - (t : Int) then
        ⟨.halfOpen, fc, 0, lft, some t, le⟩
      else
        ⟨.opened, fc, sc, lft, some t, le⟩ := by
  by_cases hel : (b.config.resetTimeoutMs : Int) ≤ (now : Int) - (t : Int) <;>
    simp [CircuitBreaker.checkStateTransition, hrec, ht0, hel,
      CircuitBreaker.transitionTo, getStateRec_setState, applyUpdate]

-- =============================================================================
-- Claims
-- =============================================================================

/-- C5: with jitter disabled, base delay `b`, multiplier `m` and cap,
`calculateRetryDelay(n)` equals `min(b * m^(n-1), cap)` exactly, for
every attempt number `n ≥ 1`. -/
theorem c5_delay_no_jitter (cfg : RetryConfig) (m : Nat)
    (hm : cfg.backoffMultiplier = some m)
    (hj : cfg.jitter.getD false = false)
    (n : Nat) (_hn : 1 ≤ n) (rand : ℚ) :
    calculateRetryDelay n cfg rand =
      min ((cfg.baseDelayMs : ℚ) * (m : ℚ) ^ (n - 1)) (cfg.maxDelayMs : ℚ) := by
  simp [calculateRetryDelay, hm, hj]

/-- Witness for C5, the spec's worked example: base=100, cap=10000,
multiplier=2, jitter off gives `delay(3) = 400`. -/
theorem c5_delay_no_jitter_witness :
    calculateRetryDelay 3 cfgNoJitter 0 = 400 := by
  rw [c5_delay_no_jitter cfgNoJitter 2 rfl rfl 3 (by norm_num) 0]
  norm_num [cfgNoJitter, min_def]

/-- C6: with jitter enabled, the computed delay lies within
`[capped/2, 3*capped/2]` inclusive, where
`capped = min(baseDelayMs * multiplier^(n-1), maxDelayMs)`; since jitter
is applied after capping, the result may exceed `maxDelayMs` (by up to
50%) whenever `capped = maxDelayMs`, as the witness exhibits. -/
theorem c6_delay_jitter_bounds (cfg : RetryConfig) (m : Nat)
    (hm : cfg.backoffMultiplier = some m)
    (hj : cfg.jitter.getD false = true)
    (n : Nat) (rand : ℚ) (h0 : 0 ≤ rand) (h1 : rand < 1) :
    min ((cfg.baseDelayMs : ℚ) * (m : ℚ) ^ (n - 1)) (cfg.maxDelayMs : ℚ) / 2
      ≤ calculateRetryDelay n cfg rand ∧
    calculateRetryDelay n cfg rand ≤
      3 / 2 * min ((cfg.baseDelayMs : ℚ) * (m : ℚ) ^ (n - 1)) (cfg.maxDelayMs : ℚ) := by
  have hmin : min ((cfg.baseDelayMs : ℚ) * (m : ℚ) ^ (n - 1)) (cfg.maxDelayMs : ℚ) =
      ((min (cfg.baseDelayMs * m ^ (n - 1)) cfg.maxDelayMs : ℕ) : ℚ) := by
    push_cast
    rfl
  have hdelay : calculateRetryDelay n cfg rand =
      ((round (((min (cfg.baseDelayMs * m ^ (n - 1)) cfg.maxDelayMs : ℕ) : ℚ)
        * (1/2 + rand)) : ℤ) : ℚ) := by
    simp only [calculateRetryDelay, hm, Option.getD_some, hj, if_true]
    rw [hmin]
  rw [hdelay, hmin]
  exact round_scale_bounds _ _ (by linarith) (by linarith)

/-- Witness for C6: base=100, cap=150, multiplier=2, jitter on, attempt 2
with `Math.random() = 0.9` gives delay 210 — within the claimed bounds
`[75, 225]` and strictly above the cap of 150. -/
theorem c6_delay_jitter_bounds_witness :
    min ((cfgJitter.baseDelayMs : ℚ) * ((2 : ℕ) : ℚ) ^ (2 - 1)) (cfgJitter.maxDelayMs : ℚ) / 2
        ≤ calculateRetryDelay 2 cfgJitter (9/10) ∧
      calculateRetryDelay 2 cfgJitter (9/10) = 210 ∧
      (cfgJitter.maxDelayMs : ℚ) < calculateRetryDelay 2 cfgJitter (9/10) := by
  have hbounds := c6_delay_jitter_bounds cfgJitter 2 rfl rfl 2 (9/10)
    (by norm_num) (by norm_num)
  have hval : calculateRetryDelay 2 cfgJitter (9/10) = 210 := by
    have h : calculateRetryDelay 2 cfgJitter (9/10) =
        ((round ((min ((100 : ℚ) * 2 ^ 1) 150) * (1/2 + 9/10)) : ℤ) : ℚ) := by
      simp [calculateRetryDelay, cfgJitter]
    rw [h]
    norm_num [min_def, round_eq]
  exact ⟨hbounds.1, hval, by rw [hval]; norm_num [cfgJitter]⟩

/-- C1 counterexample: under `maxAttempts = 3`, an operation that always
fails with a non-retryable 404 makes exactly one attempt, yet the raised
`RetryError` reports `attempts = 3` — the `attempts` field does *not*
equal the number of attempts actually made, refuting the claim as
stated. -/
theorem c1_counterexample :
    (withRetry op404 cfgRetry3).2 = 1 ∧
    ∃ err, (withRetry op404 cfgRetry3).1 = .error err ∧
      err.attempts = 3 ∧ err.attempts ≠ (withRetry op404 cfgRetry3).2 := by
  refine ⟨rfl, ⟨_, rfl, rfl, by decide⟩⟩

/-- C1 (amended): whenever `withRetry` terminates with failure — after
exhausting `maxAttempts` or upon a non-retryable error — it raises a
`RetryError` whose `attempts` field equals the *configured*
`config.maxAttempts` (which coincides with the attempts actually made
only on the exhaustion path) and whose `lastError` is the last
underlying error (normalized), or `Error("Unknown error")` when no
attempt ran (`maxAttempts = 0`). -/
theorem c1_retry_error_fields (T : Type) (op : Nat → Except JsValue T) (cfg : RetryConfig)
    (err : RetryErrorE) (herr : (withRetry op cfg).1 = .error err) :
    err.attempts = cfg.maxAttempts ∧
    ((withRetry op cfg).2 = 0 →
      err.lastError = { name := "Error", message := "Unknown error" }) ∧
    (1 ≤ (withRetry op cfg).2 →
      ∃ e, op (withRetry op cfg).2 = .error e ∧ err.lastError = normalizeError e) := by
  exact withRetryLoop_spec op cfg cfg.maxAttempts 0 none (by omega) (fun _ => rfl)
    (fun h => absurd h (by norm_num)) err herr

/-- Witness for C1 (amended): an operation always failing with status
500 under `maxAttempts = 3` raises a `RetryError` with `attempts = 3`
after 3 attempts, carrying the underlying 500 error. -/
theorem c1_retry_error_fields_witness :
    (withRetry op500 cfgRetry3).2 = 3 ∧
    ∃ err, (withRetry op500 cfgRetry3).1 = .error err ∧ err.attempts = 3 ∧
      err.lastError =
        { name := "Error", message := "HTTP 500", statusCode := some 500 } := by
  have h : (withRetry op500 cfgRetry3).1 =
      .error (mkRetryError cfgRetry3
        (some { name := "Error", message := "HTTP 500", statusCode := some 500 })) := by
    rfl
  refine ⟨rfl, ⟨_, h, (c1_retry_error_fields Unit op500 cfgRetry3 _ h).1, rfl⟩⟩

/-- C2: from a closed record with a zero failure counter, exactly
`failureThreshold` consecutive non-ignored failures (and not one fewer)
move the breaker to open, and the very next call at the same instant
fails fast with a `CircuitBreakerOpenError` carrying the breaker's name
and the remaining milliseconds until the next probe (the full
`resetTimeoutMs`, as no time has elapsed), without invoking the wrapped
operation and without touching the registry. -/
theorem c2_threshold_opens_then_fail_fast
    (name : String) (cfg : CircuitBreakerConfig) (e : JsValue) (now : Nat)
    (reg : Registry) (sc : Nat) (lft oa : Option Nat) (le : Option String)
    (hthr : 1 ≤ cfg.failureThreshold)
    (hreset : 1 ≤ cfg.resetTimeoutMs)
    (hnow : now ≠ 0)
    (hig : CircuitBreaker.shouldIgnoreError ⟨name, cfg⟩ e = false)
    (hrec : CircuitBreaker.getStateRec ⟨name, cfg⟩ reg = ⟨.closed, 0, sc, lft, oa, le⟩) :
    (∀ i, i < cfg.failureThreshold →
      (CircuitBreaker.getStateRec ⟨name, cfg⟩
        (iterateFailures ⟨name, cfg⟩ now e i reg)).state = .closed) ∧
    (CircuitBreaker.getStateRec ⟨name, cfg⟩
      (iterateFailures ⟨name, cfg⟩ now e cfg.failureThreshold reg)).state = .opened ∧
    (∀ (T : Type) (op : CallOutcome T),
      CircuitBreaker.call ⟨name, cfg⟩ now op
          (iterateFailures ⟨name, cfg⟩ now e cfg.failureThreshold reg) =
        (.circuitOpen ⟨name, cfg.resetTimeoutMs⟩,
          iterateFailures ⟨name, cfg⟩ now e cfg.failureThreshold reg, false)) := by
  have hfinal := iterateFailures_threshold_record name cfg e now reg sc lft oa le hthr hig hrec
  refine ⟨?_, ?_, ?_⟩
  · intro i hi
    obtain ⟨lft', le', hrec'⟩ :=
      iterateFailures_closed ⟨name, cfg⟩ now e hig sc oa i 0 reg lft le hrec
        (by show 0 + i < cfg.failureThreshold; omega)
    rw [hrec']
  · rw [hfinal]
  · intro T op
    have hcall := call_open_failfast (⟨name, cfg⟩ : CircuitBreaker) now op
      (iterateFailures ⟨name, cfg⟩ now e cfg.failureThreshold reg)
      (cfg.failureThreshold - 1) 0 now (some now) (some (jsTake (errorMessageOf e) 200))
      hfinal hnow
      (by show (now : Int) - (now : Int) < ((⟨name, cfg⟩ : CircuitBreaker).config.resetTimeoutMs : Int)
          show (now : Int) - (now : Int) < (cfg.resetTimeoutMs : Int)
          omega)
    have harg : (((⟨name, cfg⟩ : CircuitBreaker).config.resetTimeoutMs : Int)
        - ((now : Int) - (now : Int))).toNat = cfg.resetTimeoutMs := by
      show ((cfg.resetTimeoutMs : Int) - ((now : Int) - (now : Int))).toNat = cfg.resetTimeoutMs
      omega
    rw [hcall, harg]

/-- Witness for C2: with `failureThreshold = 2`, two 500-failures open
the breaker `"svc"` and the next call fails fast with the full reset
window of 1000 ms, without invoking the operation. -/
theorem c2_threshold_opens_then_fail_fast_witness :
    (CircuitBreaker.getStateRec ⟨"svc", cfgBreaker2⟩
      (iterateFailures ⟨"svc", cfgBreaker2⟩ 5 err500 cfgBreaker2.failureThreshold regSvc)).state
        = .opened ∧
    CircuitBreaker.call ⟨"svc", cfgBreaker2⟩ 5 (.success (T := Unit) ())
        (iterateFailures ⟨"svc", cfgBreaker2⟩ 5 err500 cfgBreaker2.failureThreshold regSvc) =
      (.circuitOpen ⟨"svc", cfgBreaker2.resetTimeoutMs⟩,
        iterateFailures ⟨"svc", cfgBreaker2⟩ 5 err500 cfgBreaker2.failureThreshold regSvc,
        false) := by
  have h := c2_threshold_opens_then_fail_fast "svc" cfgBreaker2 err500 5 regSvc 0 none none none
    (by norm_num [cfgBreaker2]) (by norm_num [cfgBreaker2]) (by norm_num) (by decide) (by decide)
  exact ⟨h.2.1, h.2.2 Unit (.success ())⟩

/-- C10: when the breaker opens from closed because the failure count
reached `failureThreshold`, the stored `failureCount` — as reported by
`stats` — remains `failureThreshold - 1`: `transitionTo("open")` writes
only `state`, `openedAt` and `successCount`, so the final increment is
never persisted. -/
theorem c10_open_keeps_stale_failure_count
    (name : String) (cfg : CircuitBreakerConfig) (e : JsValue) (now now' : Nat)
    (reg : Registry) (sc : Nat) (lft oa : Option Nat) (le : Option String)
    (hthr : 1 ≤ cfg.failureThreshold)
    (hig : CircuitBreaker.shouldIgnoreError ⟨name, cfg⟩ e = false)
    (hrec : CircuitBreaker.getStateRec ⟨name, cfg⟩ reg = ⟨.closed, 0, sc, lft, oa, le⟩) :
    (CircuitBreaker.stats ⟨name, cfg⟩ now'
      (iterateFailures ⟨name, cfg⟩ now e cfg.failureThreshold reg)).state = .opened ∧
    (CircuitBreaker.stats ⟨name, cfg⟩ now'
      (iterateFailures ⟨name, cfg⟩ now e cfg.failureThreshold reg)).failureCount =
        cfg.failureThreshold - 1 := by
  have hfinal := iterateFailures_threshold_record name cfg e now reg sc lft oa le hthr hig hrec
  constructor <;> simp [CircuitBreaker.stats, hfinal]

/-- Witness for C10: after the two failures that open `"svc"`
(threshold 2), `stats` still reports `failureCount = 1`. -/
theorem c10_open_keeps_stale_failure_count_witness :
    (CircuitBreaker.stats ⟨"svc", cfgBreaker2⟩ 6
      (iterateFailures ⟨"svc", cfgBreaker2⟩ 5 err500 cfgBreaker2.failureThreshold regSvc)).state
        = .opened ∧
    (CircuitBreaker.stats ⟨"svc", cfgBreaker2⟩ 6
      (iterateFailures ⟨"svc", cfgBreaker2⟩ 5 err500 cfgBreaker2.failureThreshold regSvc)).failureCount
        = 1 := by
  have h := c10_open_keeps_stale_failure_count "svc" cfgBreaker2 err500 5 6 regSvc 0 none none none
    (by norm_num [cfgBreaker2]) (by decide) (by decide)
  exact ⟨h.1, h.2⟩

/-- C4: while half-open, `successThreshold` consecutive successes close
the breaker with both counters reset to zero (and the open timestamp and
last error cleared), and any single non-ignored failure transitions it
immediately back to open, regardless of how many successes preceded
it. -/
theorem c4_halfOpen_transitions
    (name : String) (cfg : CircuitBreakerConfig) (now : Nat) (reg : Registry)
    (fc : Nat) (lft oa : Option Nat) (le : Option String) :
    (1 ≤ cfg.successThreshold →
      CircuitBreaker.getStateRec ⟨name, cfg⟩ reg = ⟨.halfOpen, fc, 0, lft, oa, le⟩ →
      CircuitBreaker.getStateRec ⟨name, cfg⟩
          (iterateSuccesses ⟨name, cfg⟩ now cfg.successThreshold reg) =
        ⟨.closed, 0, 0, lft, none, none⟩) ∧
    (∀ (sc : Nat) (e : JsValue),
      CircuitBreaker.shouldIgnoreError ⟨name, cfg⟩ e = false →
      CircuitBreaker.getStateRec ⟨name, cfg⟩ reg = ⟨.halfOpen, fc, sc, lft, oa, le⟩ →
      CircuitBreaker.getStateRec ⟨name, cfg⟩
          ((CircuitBreaker.call ⟨name, cfg⟩ now (.failure (T := Unit) e) reg)).2.1 =
        ⟨.opened, fc, 0, some now, some now, some (jsTake (errorMessageOf e) 200)⟩) := by
  constructor
  · intro hst hrec
    have hrec' := iterateSuccesses_halfOpen ⟨name, cfg⟩ now fc lft oa le
      (cfg.successThreshold - 1) 0 reg hrec
      (by show 0 + (cfg.successThreshold - 1) < cfg.successThreshold; omega)
    have hne : (CircuitBreaker.getStateRec ⟨name, cfg⟩
        (iterateSuccesses ⟨name, cfg⟩ now (cfg.successThreshold - 1) reg)).state ≠ .opened := by
      rw [hrec']; simp
    have hsplit : cfg.successThreshold = (cfg.successThreshold - 1) + 1 := by omega
    have hiter : iterateSuccesses ⟨name, cfg⟩ now cfg.successThreshold reg =
        (CircuitBreaker.call ⟨name, cfg⟩ now (.success (T := Unit) ())
          (iterateSuccesses ⟨name, cfg⟩ now (cfg.successThreshold - 1) reg)).2.1 := by
      conv_lhs => rw [hsplit]
      rw [iterateSuccesses_succ_last]
    rw [hiter, call_success_step ⟨name, cfg⟩ now () _ hne,
      onSuccess_halfOpen_record ⟨name, cfg⟩ now _ fc (0 + (cfg.successThreshold - 1)) lft oa le
        hrec']
    have hge : (⟨name, cfg⟩ : CircuitBreaker).config.successThreshold ≤
        (0 + (cfg.successThreshold - 1)) + 1 := by
      show cfg.successThreshold ≤ _
      omega
    rw [if_pos hge]
  · intro sc e hig hrec
    have hne : (CircuitBreaker.getStateRec ⟨name, cfg⟩ reg).state ≠ .opened := by
      rw [hrec]; simp
    rw [call_failure_step ⟨name, cfg⟩ now e reg hne,
      onFailure_halfOpen_record ⟨name, cfg⟩ now e reg fc sc lft oa le hig hrec]

/-- Witness for C4: `"svc"` half-open with failure history closes after
2 successes (threshold 2) with both counters zeroed, and a single
500-failure from the same half-open record reopens it. -/
theorem c4_halfOpen_transitions_witness :
    CircuitBreaker.getStateRec ⟨"svc", cfgBreaker2⟩
        (iterateSuccesses ⟨"svc", cfgBreaker2⟩ 9 cfgBreaker2.successThreshold regSvcHalfOpen) =
      ⟨.closed, 0, 0, some 7, none, none⟩ ∧
    CircuitBreaker.getStateRec ⟨"svc", cfgBreaker2⟩
        ((CircuitBreaker.call ⟨"svc", cfgBreaker2⟩ 9
          (.failure (T := Unit) err500) regSvcHalfOpen)).2.1 =
      ⟨.opened, 3, 0, some 9, some 9, some (jsTake (errorMessageOf err500) 200)⟩ := by
  have h := c4_halfOpen_transitions "svc" cfgBreaker2 9 regSvcHalfOpen 3
    (some 7) (some 2) (some "HTTP 500")
  exact ⟨h.1 (by norm_num [cfgBreaker2]) (by decide), h.2 0 err500 (by decide) (by decide)⟩

/-- C8: a failure whose status code is in the policy's ignored set
leaves the registry completely unchanged — failure counter, success
counter, state, last-error record and all — even when repeated
arbitrarily often (in particular past the failure threshold), and the
original error is still re-raised to the caller. -/
theorem c8_ignored_failures_are_frame
    (name : String) (cfg : CircuitBreakerConfig) (now : Nat) (e : JsValue) (reg : Registry)
    (hig : CircuitBreaker.shouldIgnoreError ⟨name, cfg⟩ e = true) :
    CircuitBreaker.onFailure ⟨name, cfg⟩ now e reg = reg ∧
    ((CircuitBreaker.getStateRec ⟨name, cfg⟩ reg).state ≠ .opened →
      CircuitBreaker.call ⟨name, cfg⟩ now (.failure (T := Unit) e) reg =
        (.err e, reg, true)) ∧
    ((CircuitBreaker.getStateRec ⟨name, cfg⟩ reg).state ≠ .opened →
      ∀ n, iterateFailures ⟨name, cfg⟩ now e n reg = reg) := by
  have hframe : CircuitBreaker.onFailure ⟨name, cfg⟩ now e reg = reg :=
    onFailure_ignored ⟨name, cfg⟩ now e reg hig
  have hcall : (CircuitBreaker.getStateRec ⟨name, cfg⟩ reg).state ≠ .opened →
      CircuitBreaker.call ⟨name, cfg⟩ now (.failure (T := Unit) e) reg =
        (.err e, reg, true) := by
    intro hne
    rw [call_failure_step ⟨name, cfg⟩ now e reg hne, hframe]
  refine ⟨hframe, hcall, ?_⟩
  intro hne n
  induction n with
  | zero => rfl
  | succ m ih =>
    rw [iterateFailures_succ_last, ih, hcall hne]

/-- Witness for C8: ten consecutive 404-failures (ignored by
`cfgBreaker2`, threshold 2) leave `"svc"`'s fresh closed record exactly
as it was, and each call re-raises the 404. -/
theorem c8_ignored_failures_are_frame_witness :
    CircuitBreaker.call ⟨"svc", cfgBreaker2⟩ 5 (.failure (T := Unit) err404) regSvc =
      (.err err404, regSvc, true) ∧
    iterateFailures ⟨"svc", cfgBreaker2⟩ 5 err404 10 regSvc = regSvc := by
  have h := c8_ignored_failures_are_frame "svc" cfgBreaker2 5 err404 regSvc (by decide)
  have hne : (CircuitBreaker.getStateRec ⟨"svc", cfgBreaker2⟩ regSvc).state ≠ .opened := by
    decide
  exact ⟨h.2.1 hne, h.2.2 hne 10⟩

/-- C9: all handles created via `getOrCreate` for one name observe and
mutate the same registry record; the record stores no policy —
`getOrCreate` on an existing name returns a handle carrying the caller's
own config and leaves the registry untouched — so handles for the same
name with different configurations each apply their own
`failureThreshold`, `successThreshold` and `resetTimeoutMs` against the
shared counters. -/
theorem c9_shared_record_handle_policy
    (reg : Registry) (nm : String) (cf1 cf2 : CircuitBreakerConfig) :
    -- (1) both handles observe the same record
    (CircuitBreaker.getStateRec ⟨nm, cf1⟩ reg = CircuitBreaker.getStateRec ⟨nm, cf2⟩ reg) ∧
    -- (2) getOrCreate on an existing name: no reset, no policy written,
    --     the handle carries the caller's config
    (∀ st, reg nm = some st →
      CircuitBreaker.getOrCreate nm cf2 reg = (⟨nm, cf2⟩, reg)) ∧
    -- (3) a write through one handle is observed through the other
    (∀ u, CircuitBreaker.getStateRec ⟨nm, cf2⟩ (CircuitBreaker.setState ⟨nm, cf1⟩ u reg) =
      applyUpdate (CircuitBreaker.getStateRec ⟨nm, cf1⟩ reg) u) ∧
    -- (4) a failing call opens the shared record iff the *handle's own*
    --     failure threshold is reached
    (∀ (c : CircuitBreakerConfig) (e : JsValue) (now k sc : Nat) (lft oa : Option Nat)
        (le : Option String),
      CircuitBreaker.shouldIgnoreError ⟨nm, c⟩ e = false →
      CircuitBreaker.getStateRec ⟨nm, c⟩ reg = ⟨.closed, k, sc, lft, oa, le⟩ →
      (CircuitBreaker.getStateRec ⟨nm, c⟩
          ((CircuitBreaker.call ⟨nm, c⟩ now (.failure (T := Unit) e) reg)).2.1).state =
        (if c.failureThreshold ≤ k + 1 then .opened else .closed)) ∧
    -- (5) a successful call closes a half-open shared record iff the
    --     *handle's own* success threshold is reached
    (∀ (c : CircuitBreakerConfig) (now fc sc : Nat) (lft oa : Option Nat) (le : Option String),
      CircuitBreaker.getStateRec ⟨nm, c⟩ reg = ⟨.halfOpen, fc, sc, lft, oa, le⟩ →
      (CircuitBreaker.getStateRec ⟨nm, c⟩
          ((CircuitBreaker.call ⟨nm, c⟩ now (.success (T := Unit) ()) reg)).2.1).state =
        (if c.successThreshold ≤ sc + 1 then .closed else .halfOpen)) ∧
    -- (6) the lazy open→half-open probe uses the *handle's own* reset timeout
    (∀ (c : CircuitBreakerConfig) (now fc sc t : Nat) (lft : Option Nat) (le : Option String),
      CircuitBreaker.getStateRec ⟨nm, c⟩ reg = ⟨.opened, fc, sc, lft, some t, le⟩ →
      t ≠ 0 →
      (CircuitBreaker.getStateRec ⟨nm, c⟩
          (CircuitBreaker.checkStateTransition ⟨nm, c⟩ now reg)).state =
        (if (c.resetTimeoutMs : Int) ≤ (now : Int) - (t : Int) then .halfOpen
         else .opened)) := by
  refine ⟨rfl, ?_, ?_, ?_, ?_, ?_⟩
  · intro st hst
    simp [CircuitBreaker.getOrCreate, hst]
  · intro u
    simp [CircuitBreaker.setState]
    exact getStateRec_set_self ⟨nm, cf2⟩ reg _
  · intro c e now k sc lft oa le hig hrec
    have hne : (CircuitBreaker.getStateRec ⟨nm, c⟩ reg).state ≠ .opened := by
      rw [hrec]; simp
    rw [call_failure_step ⟨nm, c⟩ now e reg hne,
      onFailure_closed_record ⟨nm, c⟩ now e reg k sc lft oa le hig hrec]
    by_cases ht : c.failureThreshold ≤ k + 1 <;> simp [ht]
  · intro c now fc sc lft oa le hrec
    have hne : (CircuitBreaker.getStateRec ⟨nm, c⟩ reg).state ≠ .opened := by
      rw [hrec]; simp
    rw [call_success_step ⟨nm, c⟩ now () reg hne,
      onSuccess_halfOpen_record ⟨nm, c⟩ now reg fc sc lft oa le hrec]
    by_cases ht : c.successThreshold ≤ sc + 1 <;> simp [ht]
  · intro c now fc sc t lft le hrec ht0
    rw [checkStateTransition_opened_record ⟨nm, c⟩ now reg fc sc t lft le hrec ht0]
    by_cases hel : (c.resetTimeoutMs : Int) ≤ (now : Int) - (t : Int) <;> simp [hel]

/-- Witness for C9: from the same shared record with `failureCount = 1`,
a failing call through the threshold-2 handle opens the breaker, while
the identical call through the threshold-5 handle leaves it closed. -/
theorem c9_shared_record_handle_policy_witness :
    (CircuitBreaker.getStateRec ⟨"svc", cfgBreaker2⟩
        ((CircuitBreaker.call ⟨"svc", cfgBreaker2⟩ 5
          (.failure (T := Unit) err500) regSvcOneFailure)).2.1).state = .opened ∧
    (CircuitBreaker.getStateRec ⟨"svc", cfgBreaker5⟩
        ((CircuitBreaker.call ⟨"svc", cfgBreaker5⟩ 5
          (.failure (T := Unit) err500) regSvcOneFailure)).2.1).state = .closed := by
  have h := c9_shared_record_handle_policy regSvcOneFailure "svc" cfgBreaker2 cfgBreaker5
  constructor
  · have := h.2.2.2.1 cfgBreaker2 err500 5 1 0 none none none (by decide) (by decide)
    rw [this]
    norm_num [cfgBreaker2]
  · have := h.2.2.2.1 cfgBreaker5 err500 5 1 0 none none none (by decide) (by decide)
    rw [this]
    norm_num [cfgBreaker5]

/-- C3: in `resilientFetch`'s inner operation, a non-throwing response
with `status >= 500` is promoted to a thrown failure carrying that
status code in its `statusCode` field, so the retry classifier sees it
(retryable whenever the status is in the retryable set) and the circuit
breaker's failure accounting sees it (not ignored whenever the status is
outside the ignored set, in which case a closed breaker counts it or
opens). -/
theorem c3_5xx_promoted_to_failure (r : ResponseE) (h5 : 500 ≤ r.status) :
    resilientOperation (.ok r) = .error (.error (promotedError r.status)) ∧
    (promotedError r.status).statusCode = some r.status ∧
    (∀ cfg : RetryConfig,
      (cfg.retryableStatusCodes.getD [429, 500, 502, 503, 504]).contains r.status = true →
      isRetryableError (.error (promotedError r.status)) cfg = true) ∧
    (∀ (nm : String) (cb : CircuitBreakerConfig),
      (cb.ignoredStatusCodes.getD []).contains r.status = false →
      CircuitBreaker.shouldIgnoreError ⟨nm, cb⟩ (.error (promotedError r.status)) = false) ∧
    (∀ (nm : String) (cb : CircuitBreakerConfig) (reg : Registry) (now k sc : Nat)
        (lft oa : Option Nat) (le : Option String),
      (cb.ignoredStatusCodes.getD []).contains r.status = false →
      CircuitBreaker.getStateRec ⟨nm, cb⟩ reg = ⟨.closed, k, sc, lft, oa, le⟩ →
      CircuitBreaker.getStateRec ⟨nm, cb⟩
          ((CircuitBreaker.call ⟨nm, cb⟩ now
            (.failure (T := ResponseE) (.error (promotedError r.status))) reg)).2.1 =
        (if cb.failureThreshold ≤ k + 1 then
          ⟨.opened, k, 0, some now, some now,
            some (jsTake ("HTTP " ++ toString r.status) 200)⟩
        else
          ⟨.closed, k + 1, sc, some now, oa,
            some (jsTake ("HTTP " ++ toString r.status) 200)⟩)) := by
  have hign : ∀ (nm : String) (cb : CircuitBreakerConfig),
      (cb.ignoredStatusCodes.getD []).contains r.status = false →
      CircuitBreaker.shouldIgnoreError ⟨nm, cb⟩ (.error (promotedError r.status)) = false := by
    intro nm cb hnot
    simp [CircuitBreaker.shouldIgnoreError, promotedError]
    simpa using hnot
  refine ⟨?_, rfl, ?_, hign, ?_⟩
  · simp [resilientOperation, h5]
  · intro cfg hmem
    simp [isRetryableError, promotedError]
    exact Or.inl (by simpa using hmem)
  · intro nm cb reg now k sc lft oa le hnot hrec
    have hne : (CircuitBreaker.getStateRec ⟨nm, cb⟩ reg).state ≠ .opened := by
      rw [hrec]; simp
    rw [call_failure_step ⟨nm, cb⟩ now (.error (promotedError r.status)) reg hne,
      onFailure_closed_record ⟨nm, cb⟩ now (.error (promotedError r.status)) reg k sc lft oa le
        (hign nm cb hnot) hrec]
    rfl

/-- Witness for C3: a 503 response is promoted to a failure with
`statusCode = 503`; the default retryable set classifies it retryable,
`cfgBreaker2` does not ignore it, and the call records the failure on
the fresh closed `"svc"` record. -/
theorem c3_5xx_promoted_to_failure_witness :
    resilientOperation (.ok ⟨503⟩) = .error (.error (promotedError 503)) ∧
    isRetryableError (.error (promotedError 503)) cfgRetry3 = true ∧
    CircuitBreaker.shouldIgnoreError ⟨"svc", cfgBreaker2⟩ (.error (promotedError 503)) = false ∧
    (CircuitBreaker.getStateRec ⟨"svc", cfgBreaker2⟩
        ((CircuitBreaker.call ⟨"svc", cfgBreaker2⟩ 5
          (.failure (T := ResponseE) (.error (promotedError 503))) regSvc)).2.1).failureCount
      = 1 := by
  have h := c3_5xx_promoted_to_failure ⟨503⟩ (by norm_num)
  refine ⟨h.1, h.2.2.1 cfgRetry3 (by decide), h.2.2.2.1 "svc" cfgBreaker2 (by decide), ?_⟩
  have := h.2.2.2.2 "svc" cfgBreaker2 regSvc 5 0 0 none none none (by decide) (by decide)
  rw [this]
  norm_num [cfgBreaker2]

/-- C7 counterexample: the claim that *every* timer created by the
resilience components is cleared on every exit path fails for
`createTimeoutController` — it discards the id returned by `setTimeout`
and no code path ever calls `clearTimeout` on it, so after the function
returns (and after any fetch guarded by the returned controller settles
early) the timer is still pending. -/
theorem c7_counterexample :
    pendingTimers (createTimeoutControllerModel 5000) = [0] ∧
    pendingTimers (createTimeoutControllerModel 5000) ≠ [] := by
  decide

/-- C7 (amended): the timers created by `withTimeout` and
`fetchWithTimeout` are cleared on every exit path (success, failure, or
timeout), and the retry sleep's timer fires exactly when the sleep
completes, so none of these remains pending once the guarded operation
has settled; the timer created by `createTimeoutController`, however, is
never cleared and stays pending until it fires at the deadline. -/
theorem c7_owned_timers_cleared :
    (∀ (T : Type) (promise : Except JsValue T) (timerWins : Bool) (ms : Nat) (opName : String),
      pendingTimers (withTimeoutModel promise timerWins ms opName).2 = []) ∧
    (∀ (outcome : FetchOutcome) (ms : Nat),
      pendingTimers (fetchWithTimeoutModel outcome ms).2 = []) ∧
    (∀ ms : Nat, pendingTimers (sleepModel ms) = []) ∧
    (∀ ms : Nat, pendingTimers (createTimeoutControllerModel ms) = [0]) := by
  refine ⟨?_, ?_, fun ms => rfl, fun ms => rfl⟩
  · intro T promise timerWins ms opName
    cases timerWins <;> rfl
  · intro outcome ms
    cases outcome <;> rfl
